import Mathlib

/-!
Shallow embedding of the crypto price collection pipeline in
`src/api/main.py` (entry point `src/main.py`): fetch a spot price from the
Coinbase API, normalize it into a `CryptoPrice` row, and persist it with
SQLAlchemy, with a FastAPI surface (`/salvar`, `/ultimos-registros`) and a
periodic background collection loop.

External effects are modelled as explicit parameters: the wall clock, the
outcome of the HTTP GET, and the outcomes of the database commit and of
the post-commit refresh. Python exceptions become an explicit error type
threaded through `Except`.
-/

namespace CriptoApi

/-- JSON values, as produced by `response.json()`. The payloads this
pipeline touches are objects of string/number fields, so arrays are not
modelled. Objects carry their fields as an association list with the
first binding of a key the visible one, matching a Python dict in which
keys are unique. -/
inductive Json where
  | null
  | bool (b : Bool)
  | num (q : ℚ)
  | str (s : String)
  | obj (fields : List (String × Json))

/-- Python exceptions that the code in `src/api/main.py` can raise or
handle: `KeyError` from dict subscripting, `ValueError` from `float` on a
bad string, `TypeError` from subscripting a non-dict or `float` on a
non-numeric non-string value, FastAPI's `HTTPException` with its status
code, and failures raised by the database layer. -/
inductive PyError where
  | keyError
  | valueError
  | typeError
  | httpException (statusCode : Nat)
  | dbError
  deriving Repr, DecidableEq

/-- Greedily consume decimal digits from the front of a character list,
accumulating their value in `acc` and their count in `n`. -/
def takeDigits : List Char → Nat → Nat → Nat × Nat × List Char
  | c :: cs, acc, n =>
    if c.isDigit then takeDigits cs (acc * 10 + (c.toNat - 48)) (n + 1)
    else (acc, n, c :: cs)
  | [], acc, n => (acc, n, [])

/-- Models the Python builtin `float` applied to a string: strips
surrounding whitespace, then accepts an optional sign, a decimal mantissa
with at least one digit, and an optional exponent part, returning the
exact value as a rational (Python rounds it to the nearest binary double;
both sides of every claim apply the same conversion, so the exact value
is the faithful comparison point). Exotic accepted spellings (`inf`,
`nan`, digit-group underscores) are not modelled; no string in this
development uses them. -/
def pyFloat (s : String) : Option ℚ :=
  let cs := ((s.data.dropWhile Char.isWhitespace).reverse.dropWhile
    Char.isWhitespace).reverse
  let signRest : Int × List Char :=
    match cs with
    | '-' :: rest => (-1, rest)
    | '+' :: rest => (1, rest)
    | _ => (1, cs)
  let ip := takeDigits signRest.2 0 0
  let fp : Nat × Nat × List Char :=
    match ip.2.2 with
    | '.' :: rest => takeDigits rest 0 0
    | _ => (0, 0, ip.2.2)
  if ip.2.1 + fp.2.1 = 0 then none
  else
    let num : Int := signRest.1 * ((ip.1 : Int) * (10 : Int) ^ fp.2.1 + (fp.1 : Int))
    let den : Nat := (10 : Nat) ^ fp.2.1
    match fp.2.2 with
    | [] => some (mkRat num den)
    | e :: rest =>
      if e = 'e' ∨ e = 'E' then
        let esignRest : Bool × List Char :=
          match rest with
          | '-' :: r => (false, r)
          | '+' :: r => (true, r)
          | _ => (true, rest)
        let ep := takeDigits esignRest.2 0 0
        if ep.2.1 = 0 ∨ ep.2.2 ≠ [] then none
        else if esignRest.1 then some (mkRat (num * (10 : Int) ^ ep.1) den)
        else some (mkRat num (den * (10 : Nat) ^ ep.1))
      else none

/-- Python subscripting `d[key]` with a string key: a present key of a
dict yields its value, an absent key raises `KeyError`, and subscripting
any non-dict value raises `TypeError`. -/
def getItem : Json → String → Except PyError Json
  | .obj fields, key =>
    match fields.lookup key with
    | some v => Except.ok v
    | none => Except.error PyError.keyError
  | _, _ => Except.error PyError.typeError

/-- The Python builtin `float` applied to a JSON value: strings are
parsed (`ValueError` on failure), numbers and booleans convert directly,
and `None` or a dict raise `TypeError`. -/
def pyFloatOf : Json → Except PyError ℚ
  | .str s =>
    match pyFloat s with
    | some q => Except.ok q
    | none => Except.error PyError.valueError
  | .num q => Except.ok q
  | .bool b => Except.ok (if b then 1 else 0)
  | _ => Except.error PyError.typeError

/-- The wall clock at a call site. Python's `datetime.now()` reads the
local-timezone naive time `localNow`; `datetime.utcnow()` would read
`utcNow`. The two coincide exactly when the process timezone is UTC.
Timestamps are naive datetimes, modelled as integers. -/
structure Clock where
  localNow : Int
  utcNow : Int

/-- The SQLAlchemy model `CryptoPrice` before insertion: `id` is `none`
until the database assigns it. `cripto` and `moeda` hold whatever JSON
value the payload carried at `base`/`currency` — the constructor does not
coerce them to strings. -/
structure CryptoPrice where
  id : Option Nat
  valor : ℚ
  cripto : Json
  moeda : Json
  timestamp : Int

/-- The body of `tratar_dados_cripto` before its `except` clause:
`datetime.now()` is sampled (the `.replace(tzinfo=None)` is a no-op on
the already-naive value), then the keyword arguments are evaluated left
to right, each re-subscripting `dados_json["data"]`. -/
def tratar_body (clock : Clock) (dados_json : Json) : Except PyError CryptoPrice :=
  match getItem dados_json "data" with
  | Except.error e => Except.error e
  | Except.ok d1 =>
    match getItem d1 "amount" with
    | Except.error e => Except.error e
    | Except.ok amount =>
      match pyFloatOf amount with
      | Except.error e => Except.error e
      | Except.ok valor =>
        match getItem dados_json "data" with
        | Except.error e => Except.error e
        | Except.ok d2 =>
          match getItem d2 "base" with
          | Except.error e => Except.error e
          | Except.ok cripto =>
            match getItem dados_json "data" with
            | Except.error e => Except.error e
            | Except.ok d3 =>
              match getItem d3 "currency" with
              | Except.error e => Except.error e
              | Except.ok moeda =>
                Except.ok { id := none, valor := valor, cripto := cripto,
                            moeda := moeda, timestamp := clock.localNow }

/-- The normalizer `tratar_dados_cripto` of `src/api/main.py`: runs the
body and converts `KeyError` and `ValueError` — exactly the exceptions its
`except (KeyError, ValueError)` clause names — into `HTTPException(400)`.
Any other exception (notably `TypeError`) propagates unchanged. -/
def tratar_dados_cripto (clock : Clock) (dados_json : Json) :
    Except PyError CryptoPrice :=
  match tratar_body clock dados_json with
  | Except.ok r => Except.ok r
  | Except.error PyError.keyError => Except.error (PyError.httpException 400)
  | Except.error PyError.valueError => Except.error (PyError.httpException 400)
  | Except.error e => Except.error e

/-- Shape of the valid Coinbase spot-price payload
`{"data": {"amount": s, "base": b, "currency": c}}` with string fields. -/
def mkPayload (s b c : String) : Json :=
  Json.obj [("data", Json.obj
    [("amount", Json.str s), ("base", Json.str b), ("currency", Json.str c)])]

/-- Variant of the payload in which each of the three fields of `data`
may be absent (`none`) or hold an arbitrary JSON value. -/
def optField (key : String) : Option Json → List (String × Json)
  | some v => [(key, v)]
  | none => []

/-- A `data` object assembled from optional `amount`, `base` and
`currency` entries. -/
def mkData (amount base currency : Option Json) : Json :=
  Json.obj (optField "amount" amount ++ optField "base" base ++
    optField "currency" currency)

/-- Outcome of the HTTP GET in `extrair_dados` as the code observes it:
either the JSON body of a 2xx response, or a `requests`-level failure
(connection error, timeout, or the non-2xx raised by
`response.raise_for_status()`). -/
inductive FetchOutcome where
  | success (body : Json)
  | failure

/-- The fetcher `extrair_dados` of `src/api/main.py`: returns the parsed
JSON body, and converts any `requests.exceptions.RequestException` into
`HTTPException(500)`. -/
def extrair_dados : FetchOutcome → Except PyError Json
  | FetchOutcome.success body => Except.ok body
  | FetchOutcome.failure => Except.error (PyError.httpException 500)

/-- A row of the `crypto_prices` table after insertion: the store has
assigned the autoincrement `id`. -/
structure StoredRow where
  id : Nat
  valor : ℚ
  cripto : Json
  moeda : Json
  timestamp : Int

/-- The relational store: the next autoincrement id and the rows of
`crypto_prices` in insertion order. -/
structure DB where
  nextId : Nat
  rows : List StoredRow

/-- Observable resource events of one operation, used to state session
lifecycle properties: entering and leaving the `with SessionLocal()`
block, issuing the external HTTP GET, and committing or rolling back. -/
inductive Event where
  | sessionOpen
  | networkFetch
  | dbCommit
  | dbRollback
  | sessionClose
  deriving Repr, DecidableEq

/-- Environment-given outcome of the storage steps of
`salvar_dados_sqlalchemy`: `db.commit()` and the following
`db.refresh(dados)` can each fail independently. `ok` means both
succeed; `commitFail` means the commit itself raises (nothing is
persisted); `refreshFail` means the commit succeeds and the post-commit
re-read raises (for example the connection drops before the SELECT the
refresh issues in its new transaction). -/
inductive SaveOutcome where
  | ok
  | commitFail
  | refreshFail
  deriving Repr, DecidableEq

/-- The gateway `salvar_dados_sqlalchemy` of `src/api/main.py`:
`db.add`, `db.commit`, `db.refresh` inside one `try` whose `except`
clause calls `db.rollback()` and raises `HTTPException(500)`. On
`commitFail` the rollback undoes the pending insert, so the store is
unchanged. On `refreshFail` the insert has already been committed; the
rollback only ends the fresh transaction the refresh opened, so
`HTTPException(500)` is raised while the inserted row stays in the
store. Returns the result, the store afterwards, and the commit or
rollback events observed. -/
def salvar_dados_sqlalchemy (outcome : SaveOutcome) (dados : CryptoPrice)
    (db : DB) : Except PyError StoredRow × DB × List Event :=
  let row : StoredRow :=
    { id := db.nextId, valor := dados.valor, cripto := dados.cripto,
      moeda := dados.moeda, timestamp := dados.timestamp }
  match outcome with
  | SaveOutcome.ok =>
    (Except.ok row,
     { nextId := db.nextId + 1, rows := db.rows ++ [row] },
     [Event.dbCommit])
  | SaveOutcome.commitFail =>
    (Except.error (PyError.httpException 500), db, [Event.dbRollback])
  | SaveOutcome.refreshFail =>
    (Except.error (PyError.httpException 500),
     { nextId := db.nextId + 1, rows := db.rows ++ [row] },
     [Event.dbCommit, Event.dbRollback])

/-- The environment of one pipeline cycle: the wall clock, the fetch
outcome, and the outcome of the storage commit and refresh steps. -/
structure CycleEnv where
  clock : Clock
  fetch : FetchOutcome
  save : SaveOutcome

/-- The pipeline body shared by `/salvar`, `coletar_periodicamente` and
`main`: inside one `with SessionLocal() as db` block, fetch, normalize,
save. Returns the result, the store after the block, and the events
between session open and close. -/
def pipeline_in_session (env : CycleEnv) (db : DB) :
    Except PyError StoredRow × DB × List Event :=
  match extrair_dados env.fetch with
  | Except.error e => (Except.error e, db, [Event.networkFetch])
  | Except.ok dados =>
    match tratar_dados_cripto env.clock dados with
    | Except.error e => (Except.error e, db, [Event.networkFetch])
    | Except.ok tratados =>
      match salvar_dados_sqlalchemy env.save tratados db with
      | (res, db2, evs) => (res, db2, Event.networkFetch :: evs)

/-- Body of the success response of `POST /salvar`: the identifying
fields of the stored record (the nested `dados` object is flattened). -/
structure SalvarResponse where
  status : String
  id : Nat
  cripto : Json
  valor : ℚ
  moeda : Json

/-- The `POST /salvar` handler: a `with SessionLocal() as db` block whose
`try` runs the pipeline and builds the success body; its
`except Exception` clause logs the traceback and re-raises, so every
error escapes unchanged. The `with` block closes the session on every
exit path, also when an exception is propagating. Returns the handler
outcome, the store after the request, and the event sequence. -/
def salvar (env : CycleEnv) (db : DB) :
    Except PyError SalvarResponse × DB × List Event :=
  match pipeline_in_session env db with
  | (Except.ok row, db2, evs) =>
    (Except.ok { status := "success", id := row.id, cripto := row.cripto,
                 valor := row.valor, moeda := row.moeda }, db2,
     [Event.sessionOpen] ++ evs ++ [Event.sessionClose])
  | (Except.error e, db2, evs) =>
    (Except.error e, db2, [Event.sessionOpen] ++ evs ++ [Event.sessionClose])

/-- HTTP status of the response FastAPI produces when an exception
escapes a handler: an `HTTPException` keeps its own status code; any
other exception becomes a 500 Internal Server Error. -/
def statusOf : PyError → Nat
  | PyError.httpException n => n
  | _ => 500

/-- One iteration of the collection loop, identical in
`coletar_periodicamente` (server mode) and `main` (local mode): the
session-scoped pipeline wrapped in `try ... except Exception` that logs
the error and swallows it. The result is total: the new store plus the
logged error, if any — no exception leaves a cycle. -/
def cycle (env : CycleEnv) (db : DB) : DB × Option PyError :=
  match pipeline_in_session env db with
  | (Except.ok _, db2, _) => (db2, none)
  | (Except.error e, db2, _) => (db2, some e)

/-- The collection loop run over a finite prefix of cycle environments:
each scheduled cycle executes `cycle` and the loop then proceeds to the
next one, returning the final store and the per-cycle logged errors. -/
def runLoop (envs : List CycleEnv) (db : DB) : DB × List (Option PyError) :=
  match envs with
  | [] => (db, [])
  | env :: rest =>
    let step := cycle env db
    let remainder := runLoop rest step.1
    (remainder.1, step.2 :: remainder.2)

/-- Startup schema creation `init_db`: `Base.metadata.create_all` either
succeeds, or its exception is logged and re-raised (the bare `raise` in
the `except` clause) — it is not swallowed. -/
def init_db (createOk : Bool) : Except PyError Unit :=
  if createOk then Except.ok () else Except.error PyError.dbError

/-- The local-mode entry `main` (and equally the server-mode `lifespan`
before it starts the background task): `init_db()` first, with no
surrounding handler, then the collection loop. A failing `init_db`
aborts before any cycle runs. -/
def main_run (createOk : Bool) (envs : List CycleEnv) (db : DB) :
    Except PyError (DB × List (Option PyError)) :=
  match init_db createOk with
  | Except.error e => Except.error e
  | Except.ok _ => Except.ok (runLoop envs db)

/-- Comparison used by `order_by(CryptoPrice.timestamp.desc())`: a row
precedes another when its timestamp is at least as large. -/
def byTimestampDesc (a b : StoredRow) : Prop := b.timestamp ≤ a.timestamp

instance : DecidableRel byTimestampDesc :=
  fun a b => Int.decLe b.timestamp a.timestamp

instance : IsTotal StoredRow byTimestampDesc :=
  ⟨fun a b => (Int.le_total a.timestamp b.timestamp).symm⟩

instance : IsTrans StoredRow byTimestampDesc :=
  ⟨fun _ _ _ hab hbc => le_trans hbc hab⟩

/-- The query of `ultimos_registros`:
`query(CryptoPrice).order_by(timestamp.desc()).limit(limit).all()` against
PostgreSQL (the engine is configured with psycopg2 connection arguments).
`LIMIT k` keeps the first `k` rows of the descending order; PostgreSQL
rejects a negative `LIMIT` with an error, which SQLAlchemy surfaces as a
database exception, and `LIMIT 0` returns no rows. -/
def query_recent (db : DB) (limit : Int) : Except PyError (List StoredRow) :=
  if limit < 0 then Except.error PyError.dbError
  else Except.ok ((List.insertionSort byTimestampDesc db.rows).take limit.toNat)

/-- One element of the `dados` array of the `/ultimos-registros`
response (the `isoformat` string rendering of the timestamp is kept as
the timestamp value). -/
structure RegistroOut where
  id : Nat
  cripto : Json
  valor : ℚ
  moeda : Json
  timestamp : Int

/-- Projection of a stored row to a `dados` array element. -/
def rowOut (r : StoredRow) : RegistroOut :=
  { id := r.id, cripto := r.cripto, valor := r.valor, moeda := r.moeda,
    timestamp := r.timestamp }

/-- Body of the `/ultimos-registros` response: `total` is
`len(registros)` and `dados` the projected rows. -/
structure RecentResponse where
  total : Nat
  dados : List RegistroOut

/-- The `GET /ultimos-registros` handler with an explicit `limit` query
parameter: runs the query in its own session and wraps the rows with
their count. -/
def ultimos_registros (db : DB) (limit : Int) : Except PyError RecentResponse :=
  match query_recent db limit with
  | Except.error e => Except.error e
  | Except.ok registros =>
    Except.ok { total := registros.length, dados := registros.map rowOut }

/-- The `GET /ultimos-registros` handler when the request omits `limit`:
FastAPI fills in the declared default `limit: int = 5`. -/
def ultimos_registros_default (db : DB) : Except PyError RecentResponse :=
  ultimos_registros db 5

/-- Sample stored row used to instantiate theorems with hypotheses. -/
def rowW : StoredRow :=
  { id := 1, valor := 5, cripto := Json.str "BTC", moeda := Json.str "USD",
    timestamp := 10 }

/-- Sample store holding the single row `rowW`. -/
def dbW : DB := { nextId := 2, rows := [rowW] }

/-- Empty store with the autoincrement counter at 1. -/
def db0 : DB := { nextId := 1, rows := [] }

/-- Cycle environment in which the HTTP GET fails. -/
def envFail : CycleEnv :=
  { clock := { localNow := 0, utcNow := 0 }, fetch := FetchOutcome.failure,
    save := SaveOutcome.ok }

/-- Cycle environment with a well-formed payload and a succeeding
commit. -/
def envW : CycleEnv :=
  { clock := { localNow := 0, utcNow := 0 },
    fetch := FetchOutcome.success (mkPayload "42" "BTC" "USD"),
    save := SaveOutcome.ok }

/-- C1: every cycle of the background collection loop (server-mode task
and local-mode loop alike) catches any stage error inside the cycle and
logs it, the cycle ends without propagating, and the loop proceeds: the
loop executes exactly one cycle per scheduled environment no matter how
the cycles fare, and a cycle whose pipeline fails ends normally with the
error recorded in its log slot. -/
theorem C1_loop_survives_failed_cycles (envs : List CycleEnv) (db : DB) :
    (runLoop envs db).2.length = envs.length ∧
    (∀ (env : CycleEnv) (d : DB) (e : PyError) (d2 : DB) (evs : List Event),
      pipeline_in_session env d = (Except.error e, d2, evs) →
      cycle env d = (d2, some e)) := by
  constructor
  · induction envs generalizing db with
    | nil => rfl
    | cons e rest ih => simp [runLoop, ih]
  · intro env d e d2 evs h
    simp [cycle, h]

theorem C1_loop_survives_failed_cycles_witness :
    (runLoop [envFail, envW] db0).2.length = [envFail, envW].length ∧
    cycle envFail db0 = (db0, some (PyError.httpException 500)) :=
  ⟨(C1_loop_survives_failed_cycles [envFail, envW] db0).1,
   (C1_loop_survives_failed_cycles [envFail, envW] db0).2 envFail db0
     (PyError.httpException 500) db0 [Event.networkFetch] (by rfl)⟩

/-- The row a successful insert appends: the given record with the id
the store assigns. -/
def insertedRow (dados : CryptoPrice) (db : DB) : StoredRow :=
  { id := db.nextId, valor := dados.valor, cripto := dados.cripto,
    moeda := dados.moeda, timestamp := dados.timestamp }

/-- Sample in-memory record used to instantiate storage theorems. -/
def recW : CryptoPrice :=
  { id := none, valor := 5, cripto := Json.str "BTC",
    moeda := Json.str "USD", timestamp := 10 }

/-- C6, counterexample: the claim says that on any failure of `save` the
transaction is rolled back and the store is unchanged. When
`db.commit()` succeeds and the following `db.refresh(dados)` raises, the
`except` clause rolls back only the fresh transaction the refresh opened
and raises `HTTPException(500)` — yet the inserted row is already
durably committed, so the caller receives the error while the store has
changed. -/
theorem C6_counterexample_refresh_failure_row_committed :
    (salvar_dados_sqlalchemy SaveOutcome.refreshFail recW db0).1 =
      Except.error (PyError.httpException 500) ∧
    (salvar_dados_sqlalchemy SaveOutcome.refreshFail recW db0).2.1.rows =
      [insertedRow recW db0] ∧
    db0.rows ≠ [insertedRow recW db0] :=
  ⟨rfl, rfl, by simp [db0]⟩

/-- C6, amended: `salvar_dados_sqlalchemy` inserts the record in a
single transaction and never writes a partially populated row: a
successful commit and refresh append exactly the one new row, with the
id the store assigns, and return it; a failure of the commit itself is
rolled back, raises the internal-error `HTTPException(500)`, and leaves
the store exactly as it was; but a failure of the post-commit refresh
raises the same `HTTPException(500)` while the inserted row remains
committed — on that path the caller sees an error although the record
was fully written. -/
theorem C6_amended_save_commit_refresh (dados : CryptoPrice) (db : DB) :
    salvar_dados_sqlalchemy SaveOutcome.ok dados db =
      (Except.ok (insertedRow dados db),
       { nextId := db.nextId + 1, rows := db.rows ++ [insertedRow dados db] },
       [Event.dbCommit]) ∧
    salvar_dados_sqlalchemy SaveOutcome.commitFail dados db =
      (Except.error (PyError.httpException 500), db, [Event.dbRollback]) ∧
    salvar_dados_sqlalchemy SaveOutcome.refreshFail dados db =
      (Except.error (PyError.httpException 500),
       { nextId := db.nextId + 1, rows := db.rows ++ [insertedRow dados db] },
       [Event.dbCommit, Event.dbRollback]) :=
  ⟨rfl, rfl, rfl⟩

/-- C9: in every successful `/ultimos-registros` response, the `total`
field equals the number of entries of the `dados` array. -/
theorem C9_total_equals_dados_length (db : DB) (limit : Int)
    (r : RecentResponse) (h : ultimos_registros db limit = Except.ok r) :
    r.total = r.dados.length := by
  unfold ultimos_registros at h
  cases hq : query_recent db limit with
  | error e => rw [hq] at h; cases h
  | ok registros =>
    rw [hq] at h
    cases h
    simp

theorem C9_total_equals_dados_length_witness :
    ({ total := 1, dados := [rowOut rowW] } : RecentResponse).total =
      ({ total := 1, dados := [rowOut rowW] } : RecentResponse).dados.length :=
  C9_total_equals_dados_length dbW 5 { total := 1, dados := [rowOut rowW] }
    (by rfl)

/-- C10: the failure-isolation policy does not cover startup schema
initialization: a failing `init_db` is re-raised, so `main` (local mode)
and the lifespan startup (server mode) abort before any collection cycle
runs, while a successful `init_db` hands over to the loop that swallows
per-cycle errors. -/
theorem C10_init_failure_aborts (envs : List CycleEnv) (db : DB) :
    main_run false envs db = Except.error PyError.dbError ∧
    main_run true envs db = Except.ok (runLoop envs db) :=
  ⟨rfl, rfl⟩

/-- C2: for every payload `{data:{amount, base, currency}}` whose amount
is a string parsing to a positive number, the normalizer returns a record
with `valor` the parsed amount, `cripto` the base, `moeda` the currency,
and the capture timestamp of the normalization instant. -/
theorem C2_normalize_valid_payload (clock : Clock) (s b c : String) (q : ℚ)
    (hq : pyFloat s = some q) (hpos : 0 < q) :
    tratar_dados_cripto clock (mkPayload s b c) =
      Except.ok { id := none, valor := q, cripto := Json.str b,
                  moeda := Json.str c, timestamp := clock.localNow } := by
  simp [tratar_dados_cripto, tratar_body, mkPayload, getItem, pyFloatOf,
    List.lookup, hq]

theorem C2_normalize_valid_payload_witness :
    tratar_dados_cripto { localNow := 0, utcNow := 0 }
        (mkPayload "67321.50" "BTC" "USD") =
      Except.ok { id := none, valor := mkRat 134643 2, cripto := Json.str "BTC",
                  moeda := Json.str "USD", timestamp := 0 } :=
  C2_normalize_valid_payload { localNow := 0, utcNow := 0 } "67321.50" "BTC"
    "USD" (mkRat 134643 2) (by decide) (by decide)

/-- C4, counterexample: the claim says `capturedAt` is stamped with the
current UTC time, but the code calls `datetime.now()`, the local wall
clock. At a clock whose local reading (100) differs from its UTC reading
(40) — any process timezone other than UTC — the record is stamped 100,
the local time, not 40. -/
theorem C4_counterexample_local_time_not_utc :
    tratar_dados_cripto { localNow := 100, utcNow := 40 }
        (mkPayload "42" "BTC" "USD") =
      Except.ok { id := none, valor := mkRat 42 1, cripto := Json.str "BTC",
                  moeda := Json.str "USD", timestamp := 100 } ∧
    (100 : Int) ≠ 40 :=
  ⟨by rfl, by decide⟩

/-- C4, amended: every record the normalizer produces is stamped with the
current local system time read by `datetime.now()` at normalization —
equal to UTC exactly when the process timezone is UTC — independent of
anything in the payload, and the stamp is always populated (the field is
total, never null). -/
theorem C4_amended_capturedAt_is_local_now (clock : Clock) (j : Json)
    (r : CryptoPrice) (h : tratar_dados_cripto clock j = Except.ok r) :
    r.timestamp = clock.localNow := by
  unfold tratar_dados_cripto at h
  cases hb : tratar_body clock j with
  | error e =>
    rw [hb] at h
    cases e <;> cases h
  | ok r2 =>
    rw [hb] at h
    cases h
    unfold tratar_body at hb
    repeat' split at hb
    all_goals cases hb
    rfl

theorem C4_amended_capturedAt_is_local_now_witness :
    ({ id := none, valor := mkRat 1 1, cripto := Json.str "BTC",
       moeda := Json.str "USD", timestamp := 7 } : CryptoPrice).timestamp =
      ({ localNow := 7, utcNow := 9 } : Clock).localNow :=
  C4_amended_capturedAt_is_local_now { localNow := 7, utcNow := 9 }
    (mkPayload "1" "BTC" "USD")
    { id := none, valor := mkRat 1 1, cripto := Json.str "BTC",
      moeda := Json.str "USD", timestamp := 7 } (by rfl)

/-- Helper: the events a pipeline run emits inside its session are one
of four sequences — fetch only (a stage failed before the insert), fetch
then commit, fetch then rollback (the commit failed), or fetch, commit,
rollback (the post-commit refresh failed). -/
theorem pipeline_events (env : CycleEnv) (db : DB) :
    (pipeline_in_session env db).2.2 = [Event.networkFetch] ∨
    (pipeline_in_session env db).2.2 = [Event.networkFetch, Event.dbCommit] ∨
    (pipeline_in_session env db).2.2 = [Event.networkFetch, Event.dbRollback] ∨
    (pipeline_in_session env db).2.2 =
      [Event.networkFetch, Event.dbCommit, Event.dbRollback] := by
  rcases env with ⟨clock, fetch, save⟩
  cases fetch with
  | failure => left; rfl
  | success body =>
    cases htr : tratar_dados_cripto clock body with
    | error e =>
      left
      simp [pipeline_in_session, extrair_dados, htr]
    | ok t =>
      cases save with
      | ok =>
        right; left
        simp [pipeline_in_session, extrair_dados, htr, salvar_dados_sqlalchemy]
      | commitFail =>
        right; right; left
        simp [pipeline_in_session, extrair_dados, htr, salvar_dados_sqlalchemy]
      | refreshFail =>
        right; right; right
        simp [pipeline_in_session, extrair_dados, htr, salvar_dados_sqlalchemy]

/-- Helper: the `/salvar` handler's event trace is the session-scoped
pipeline trace bracketed by session open and close. -/
theorem salvar_trace_shape (env : CycleEnv) (db : DB) :
    (salvar env db).2.2 =
      [Event.sessionOpen] ++ (pipeline_in_session env db).2.2 ++
        [Event.sessionClose] := by
  unfold salvar
  rcases hp : pipeline_in_session env db with ⟨res, db2, evs⟩
  cases res <;> simp

/-- C7, amended: the manual-trigger operation acquires its own scoped
session and that session is released on every exit path — its trace
begins with exactly one session open and ends with exactly one session
close whatever the fetch, validation and commit outcomes — but the
session is opened before the external HTTP GET and closed after it, so
it is held across the network call (the claim's final conjunct fails;
SQLAlchemy only checks a connection out of the pool lazily, so no
connection is in use until the insert). -/
theorem C7_amended_session_lifecycle (env : CycleEnv) (db : DB) :
    (salvar env db).2.2.head? = some Event.sessionOpen ∧
    (salvar env db).2.2.getLast? = some Event.sessionClose ∧
    (salvar env db).2.2.count Event.sessionOpen = 1 ∧
    (salvar env db).2.2.count Event.sessionClose = 1 := by
  have hshape := salvar_trace_shape env db
  rcases pipeline_events env db with h | h | h | h <;> rw [hshape, h] <;> decide

/-- C7, counterexample: on a successful manual collection the observable
event order is session open, then the external network fetch, then the
commit, then session close — the storage session is acquired before the
network call and held across it, contradicting the claim that a session
is never held across an external network call. -/
theorem C7_counterexample_session_spans_fetch :
    (salvar envW db0).2.2 =
      [Event.sessionOpen, Event.networkFetch, Event.dbCommit,
       Event.sessionClose] := by
  decide

/-- Cycle environment whose payload carries a negative amount string. -/
def envNeg : CycleEnv :=
  { clock := { localNow := 0, utcNow := 0 },
    fetch := FetchOutcome.success (mkPayload "-1" "BTC" "USD"),
    save := SaveOutcome.ok }

/-- C3, counterexample: the claim says a payload with a non-positive
amount fails with `ValidationError` and no storage write happens. The
code never checks the sign: `float("-1")` parses fine, the payload
`{data:{amount:"-1", base:"BTC", currency:"USD"}}` normalizes
successfully, and a manual collection on it writes a row with the
negative value to the store. -/
theorem C3_counterexample_negative_amount_accepted :
    pyFloat "-1" = some (-1) ∧ ((-1 : ℚ) ≤ 0) ∧
    tratar_dados_cripto { localNow := 0, utcNow := 0 }
        (mkPayload "-1" "BTC" "USD") =
      Except.ok { id := none, valor := -1, cripto := Json.str "BTC",
                  moeda := Json.str "USD", timestamp := 0 } ∧
    (salvar envNeg db0).2.1.rows =
      [{ id := 1, valor := -1, cripto := Json.str "BTC",
         moeda := Json.str "USD", timestamp := 0 }] :=
  ⟨by decide, by decide, by rfl, by rfl⟩

/-- C3, amended: a payload whose `data` object is missing any of
`amount`, `base` or `currency` (with `amount`, when present, a string),
or whose `amount` is a string that does not parse as a number, makes the
normalizer fail with the client-error `HTTPException(400)`, and whenever
normalization fails the save stage is never reached, so no storage write
is performed and the store is unchanged. Positivity of the amount is not
checked (see the counterexample), and a present `amount` of non-string
non-numeric type escapes as an uncaught `TypeError` instead of the
400. -/
theorem C3_amended_validation_errors :
    (∀ (clock : Clock) (b c : Option Json),
      tratar_dados_cripto clock (Json.obj [("data", mkData none b c)]) =
        Except.error (PyError.httpException 400)) ∧
    (∀ (clock : Clock) (s : String) (c : Option Json),
      tratar_dados_cripto clock
          (Json.obj [("data", mkData (some (Json.str s)) none c)]) =
        Except.error (PyError.httpException 400)) ∧
    (∀ (clock : Clock) (s : String) (b : Json),
      tratar_dados_cripto clock
          (Json.obj [("data", mkData (some (Json.str s)) (some b) none)]) =
        Except.error (PyError.httpException 400)) ∧
    (∀ (clock : Clock) (s : String) (b c : Json), pyFloat s = none →
      tratar_dados_cripto clock
          (Json.obj [("data", mkData (some (Json.str s)) (some b) (some c))]) =
        Except.error (PyError.httpException 400)) ∧
    (∀ (clock : Clock) (j : Json) (save : SaveOutcome) (db : DB) (e : PyError),
      tratar_dados_cripto clock j = Except.error e →
      (salvar { clock := clock, fetch := FetchOutcome.success j,
                save := save } db).2.1 = db) := by
  refine ⟨?missA, ?missB, ?missC, ?badAmt, ?noWrite⟩
  case missA =>
    intro clock b c
    cases b <;> cases c <;> rfl
  case missB =>
    intro clock s c
    cases c <;> cases h : pyFloat s <;>
      simp [tratar_dados_cripto, tratar_body, mkData, optField, getItem,
        pyFloatOf, List.lookup, h]
  case missC =>
    intro clock s b
    cases h : pyFloat s <;>
      simp [tratar_dados_cripto, tratar_body, mkData, optField, getItem,
        pyFloatOf, List.lookup, h]
  case badAmt =>
    intro clock s b c h
    simp [tratar_dados_cripto, tratar_body, mkData, optField, getItem,
      pyFloatOf, List.lookup, h]
  case noWrite =>
    intro clock j save db e h
    simp [salvar, pipeline_in_session, extrair_dados, h]

theorem C3_amended_validation_errors_witness :
    tratar_dados_cripto { localNow := 0, utcNow := 0 }
        (Json.obj [("data", mkData none (some (Json.str "BTC"))
          (some (Json.str "USD")))]) =
      Except.error (PyError.httpException 400) ∧
    tratar_dados_cripto { localNow := 0, utcNow := 0 }
        (Json.obj [("data", mkData (some (Json.str "42")) none
          (some (Json.str "USD")))]) =
      Except.error (PyError.httpException 400) ∧
    tratar_dados_cripto { localNow := 0, utcNow := 0 }
        (Json.obj [("data", mkData (some (Json.str "42"))
          (some (Json.str "BTC")) none)]) =
      Except.error (PyError.httpException 400) ∧
    tratar_dados_cripto { localNow := 0, utcNow := 0 }
        (Json.obj [("data", mkData (some (Json.str "not-a-number"))
          (some (Json.str "BTC")) (some (Json.str "USD")))]) =
      Except.error (PyError.httpException 400) ∧
    (salvar { clock := { localNow := 0, utcNow := 0 },
              fetch := FetchOutcome.success
                (Json.obj [("data", mkData none (some (Json.str "BTC"))
                  (some (Json.str "USD")))]),
              save := SaveOutcome.ok } db0).2.1 = db0 :=
  ⟨C3_amended_validation_errors.1 { localNow := 0, utcNow := 0 }
     (some (Json.str "BTC")) (some (Json.str "USD")),
   C3_amended_validation_errors.2.1 { localNow := 0, utcNow := 0 } "42"
     (some (Json.str "USD")),
   C3_amended_validation_errors.2.2.1 { localNow := 0, utcNow := 0 } "42"
     (Json.str "BTC"),
   C3_amended_validation_errors.2.2.2.1 { localNow := 0, utcNow := 0 }
     "not-a-number" (Json.str "BTC") (Json.str "USD") (by decide),
   C3_amended_validation_errors.2.2.2.2 { localNow := 0, utcNow := 0 }
     (Json.obj [("data", mkData none (some (Json.str "BTC"))
       (some (Json.str "USD")))]) SaveOutcome.ok db0
     (PyError.httpException 400) (by rfl)⟩

/-- Cycle environment whose payload has a `data` member that is a number
rather than an object: subscripting it raises `TypeError`. -/
def envT : CycleEnv :=
  { clock := { localNow := 0, utcNow := 0 },
    fetch := FetchOutcome.success (Json.obj [("data", Json.num 5)]),
    save := SaveOutcome.ok }

/-- C8, counterexample: the claim says bad upstream data yields a 4xx
client error. A payload whose `data` member is not an object is bad
upstream data, but subscripting it raises `TypeError`, which the
normalizer's `except (KeyError, ValueError)` does not catch and the
handler's `except Exception` re-raises; FastAPI renders the escaped
non-HTTPException as a 500 internal error, not a 4xx. -/
theorem C8_counterexample_typeerror_yields_500 :
    (salvar envT db0).1 = Except.error PyError.typeError ∧
    statusOf PyError.typeError = 500 ∧ ¬ statusOf PyError.typeError < 500 :=
  ⟨by rfl, by decide, by decide⟩

/-- C8, amended: the manual trigger `/salvar` returns the stored record's
identifying fields on success; a fetch failure or a storage failure
propagates as `HTTPException(500)` (internal error); bad upstream data
whose `data` object has string fields propagates as `HTTPException(400)`
(client error) when the amount string does not parse; but bad upstream
data of an unexpected type escapes as an uncaught exception that FastAPI
renders 500 (see the counterexample). -/
theorem C8_amended_trigger_statuses :
    (∀ (clock : Clock) (save : SaveOutcome) (db : DB),
      (salvar { clock := clock, fetch := FetchOutcome.failure,
                save := save } db).1 =
        Except.error (PyError.httpException 500)) ∧
    (∀ (clock : Clock) (save : SaveOutcome) (db : DB) (s b c : String),
      pyFloat s = none →
      (salvar { clock := clock,
                fetch := FetchOutcome.success (mkPayload s b c),
                save := save } db).1 =
        Except.error (PyError.httpException 400)) ∧
    (∀ (clock : Clock) (db : DB) (s b c : String) (q : ℚ)
        (save : SaveOutcome),
      pyFloat s = some q → save ≠ SaveOutcome.ok →
      (salvar { clock := clock,
                fetch := FetchOutcome.success (mkPayload s b c),
                save := save } db).1 =
        Except.error (PyError.httpException 500)) ∧
    (∀ (clock : Clock) (db : DB) (s b c : String) (q : ℚ),
      pyFloat s = some q →
      (salvar { clock := clock,
                fetch := FetchOutcome.success (mkPayload s b c),
                save := SaveOutcome.ok } db).1 =
        Except.ok { status := "success", id := db.nextId,
                    cripto := Json.str b, valor := q,
                    moeda := Json.str c }) := by
  refine ⟨?fetchFail, ?badData, ?storeFail, ?ok⟩
  case fetchFail =>
    intro clock save db
    rfl
  case badData =>
    intro clock save db s b c h
    simp [salvar, pipeline_in_session, extrair_dados, tratar_dados_cripto,
      tratar_body, mkPayload, getItem, pyFloatOf, List.lookup, h]
  case storeFail =>
    intro clock db s b c q save h hne
    cases save with
    | ok => exact absurd rfl hne
    | commitFail =>
      simp [salvar, pipeline_in_session, extrair_dados, tratar_dados_cripto,
        tratar_body, mkPayload, getItem, pyFloatOf, List.lookup, h,
        salvar_dados_sqlalchemy]
    | refreshFail =>
      simp [salvar, pipeline_in_session, extrair_dados, tratar_dados_cripto,
        tratar_body, mkPayload, getItem, pyFloatOf, List.lookup, h,
        salvar_dados_sqlalchemy]
  case ok =>
    intro clock db s b c q h
    simp [salvar, pipeline_in_session, extrair_dados, tratar_dados_cripto,
      tratar_body, mkPayload, getItem, pyFloatOf, List.lookup, h,
      salvar_dados_sqlalchemy]

theorem C8_amended_trigger_statuses_witness :
    (salvar { clock := { localNow := 0, utcNow := 0 },
              fetch := FetchOutcome.failure,
              save := SaveOutcome.ok } db0).1 =
      Except.error (PyError.httpException 500) ∧
    (salvar { clock := { localNow := 0, utcNow := 0 },
              fetch := FetchOutcome.success
                (mkPayload "not-a-number" "BTC" "USD"),
              save := SaveOutcome.ok } db0).1 =
      Except.error (PyError.httpException 400) ∧
    (salvar { clock := { localNow := 0, utcNow := 0 },
              fetch := FetchOutcome.success (mkPayload "42" "BTC" "USD"),
              save := SaveOutcome.commitFail } db0).1 =
      Except.error (PyError.httpException 500) ∧
    (salvar { clock := { localNow := 0, utcNow := 0 },
              fetch := FetchOutcome.success (mkPayload "42" "BTC" "USD"),
              save := SaveOutcome.ok } db0).1 =
      Except.ok { status := "success", id := db0.nextId,
                  cripto := Json.str "BTC", valor := mkRat 42 1,
                  moeda := Json.str "USD" } :=
  ⟨C8_amended_trigger_statuses.1 { localNow := 0, utcNow := 0 }
     SaveOutcome.ok db0,
   C8_amended_trigger_statuses.2.1 { localNow := 0, utcNow := 0 }
     SaveOutcome.ok db0 "not-a-number" "BTC" "USD" (by decide),
   C8_amended_trigger_statuses.2.2.1 { localNow := 0, utcNow := 0 } db0
     "42" "BTC" "USD" (mkRat 42 1) SaveOutcome.commitFail (by decide)
     (by decide),
   C8_amended_trigger_statuses.2.2.2 { localNow := 0, utcNow := 0 } db0
     "42" "BTC" "USD" (mkRat 42 1) (by decide)⟩

/-- Helper: for a nonnegative limit the listing succeeds with the rows
sorted newest-first and truncated to the limit. -/
theorem ultimos_registros_nonneg (db : DB) (limit : Int) (h : 0 ≤ limit) :
    ultimos_registros db limit = Except.ok
      { total := ((List.insertionSort byTimestampDesc db.rows).take
          limit.toNat).length,
        dados := ((List.insertionSort byTimestampDesc db.rows).take
          limit.toNat).map rowOut } := by
  unfold ultimos_registros query_recent
  rw [if_neg (not_lt.mpr h)]

/-- C5, counterexample: the claim says a non-positive limit falls back to
the default of 5 records. On a store holding one row, `limit = 0` is
passed straight to the database and returns zero records, while the
default (5) returns the one row — there is no fallback. -/
theorem C5_counterexample_limit_zero_no_fallback :
    ultimos_registros dbW 0 = Except.ok { total := 0, dados := [] } ∧
    ultimos_registros_default dbW =
      Except.ok { total := 1, dados := [rowOut rowW] } ∧
    (0 : Nat) ≠ 1 :=
  ⟨by rfl, by rfl, by decide⟩

/-- C5, amended: for every store and nonnegative limit, the listing
returns at most `limit` records and never more than exist, ordered by
capture timestamp descending; with no data it returns an empty sequence
rather than an error; a missing limit defaults to 5. A non-positive
limit is not replaced by the default: `limit = 0` returns zero records
and a negative limit is rejected by the database as an error. -/
theorem C5_amended_list_recent :
    (∀ (db : DB) (limit : Int) (r : RecentResponse), 0 ≤ limit →
      ultimos_registros db limit = Except.ok r →
      r.dados.length ≤ limit.toNat ∧ r.dados.length ≤ db.rows.length ∧
      r.dados.Pairwise (fun a b => b.timestamp ≤ a.timestamp)) ∧
    (∀ db : DB, db.rows = [] →
      ultimos_registros_default db = Except.ok { total := 0, dados := [] }) ∧
    (∀ db : DB, ultimos_registros_default db = ultimos_registros db 5) ∧
    (∀ db : DB, ultimos_registros db 0 = Except.ok { total := 0, dados := [] }) ∧
    (∀ (db : DB) (limit : Int), limit < 0 →
      ultimos_registros db limit = Except.error PyError.dbError) := by
  refine ⟨?bounded, ?empty, ?dflt, ?zero, ?neg⟩
  case bounded =>
    intro db limit r hnn h
    rw [ultimos_registros_nonneg db limit hnn] at h
    cases h
    refine ⟨?tak, ?ex, ?ord⟩
    case tak =>
      rw [List.length_map, List.length_take]
      exact Nat.min_le_left _ _
    case ex =>
      rw [List.length_map, List.length_take, List.length_insertionSort]
      exact Nat.min_le_right _ _
    case ord =>
      rw [List.pairwise_map]
      exact List.Pairwise.sublist (List.take_sublist _ _)
        (List.sorted_insertionSort byTimestampDesc db.rows)
  case empty =>
    intro db h
    unfold ultimos_registros_default
    rw [ultimos_registros_nonneg db 5 (by decide), h]
    rfl
  case dflt =>
    intro db
    rfl
  case zero =>
    intro db
    rw [ultimos_registros_nonneg db 0 (by decide)]
    simp
  case neg =>
    intro db limit h
    unfold ultimos_registros query_recent
    rw [if_pos h]

theorem C5_amended_list_recent_witness :
    (({ total := 1, dados := [rowOut rowW] } : RecentResponse).dados.length ≤
        (5 : Int).toNat ∧
      ({ total := 1, dados := [rowOut rowW] } : RecentResponse).dados.length ≤
        dbW.rows.length ∧
      ({ total := 1, dados := [rowOut rowW] } : RecentResponse).dados.Pairwise
        (fun a b => b.timestamp ≤ a.timestamp)) ∧
    ultimos_registros_default db0 = Except.ok { total := 0, dados := [] } ∧
    ultimos_registros_default dbW = ultimos_registros dbW 5 ∧
    ultimos_registros dbW 0 = Except.ok { total := 0, dados := [] } ∧
    ultimos_registros dbW (-3) = Except.error PyError.dbError :=
  ⟨C5_amended_list_recent.1 dbW 5 { total := 1, dados := [rowOut rowW] }
     (by decide) (by rfl),
   C5_amended_list_recent.2.1 db0 (by rfl),
   C5_amended_list_recent.2.2.1 dbW,
   C5_amended_list_recent.2.2.2.1 dbW,
   C5_amended_list_recent.2.2.2.2 dbW (-3) (by decide)⟩

end CriptoApi
